import Mathlib

/-!
Shallow embedding of the rds-failover-sim monitoring/failover core
(src/rds-failover/app/simFail.go).

Remote control-plane calls are modelled by their results: one
DescribeDBInstances call is a value of type DescribeResult (a transport
error or a list of instances), and a whole run consumes a stream
`describe : Nat -> DescribeResult` giving the result of the k-th call.
The RebootDBInstance (ForceFailover) call is modelled by its error,
an Option String.  Time is modelled by a Nat counter advanced by the
ticker interval (monitorDatabase) and by the sleep interval
(monitorFailoverStatus).  Unbounded Go loops become fuel-indexed
recursions whose outcome field is Option (Option String):
none means the loop is still running after that many iterations,
some r means the Go function returned with error r (some none is a
nil-error return).
-/

/-- Mirrors Go struct SimulationConfig (simFail.go lines 17-21). -/
structure SimulationConfig where
  dbIdentifier : String
  endpoint : String
  port : Int
deriving DecidableEq, Repr

/-- The two fields of an AWS DBInstance that simFail.go reads. -/
structure DBInstance where
  dbInstanceStatus : String
  availabilityZone : String
deriving DecidableEq, Repr

/-- Result of one DescribeDBInstances control-plane call: a transport
error, or the (possibly empty) list of matching instances. -/
inductive DescribeResult where
  | err (e : String)
  | ok (dbInstances : List DBInstance)
deriving DecidableEq, Repr

/-- The operator-facing category that drives the colour choice in
printStatus and printFailoverStatus: success colour = Healthy,
warning = Transitional, failure = Unknown. -/
inductive StatusCategory where
  | Healthy
  | Transitional
  | Unknown
deriving DecidableEq, Repr

/-- The switch in printStatus (simFail.go lines 103-110): case
"available" uses the success style, cases "rebooting", "modifying" the
warning style, default the failure style.  We record the category the
switch selects. -/
def printStatusCategory (status : String) : StatusCategory :=
  if status = "available" then .Healthy
  else if status = "rebooting" ∨ status = "modifying" then .Transitional
  else .Unknown

/-- The switch in printFailoverStatus (simFail.go lines 191-198), with
the same three cases as printStatus. -/
def printFailoverStatusCategory (status : String) : StatusCategory :=
  if status = "available" then .Healthy
  else if status = "rebooting" ∨ status = "modifying" then .Transitional
  else .Unknown

/-- The recognized Healthy raw-status strings (spec section 8). -/
def healthySet : List String := ["available"]

/-- The recognized Transitional raw-status strings (spec section 8). -/
def transitionalSet : List String := ["rebooting", "modifying"]

/-- Spec-side classifier, written from the words of spec section 8 for
the refinement claim C2: recognized Healthy strings map to Healthy,
recognized Transitional strings to Transitional, everything else
(including the empty string) to Unknown. -/
def specClassify (s : String) : StatusCategory :=
  if s ∈ healthySet then .Healthy
  else if s ∈ transitionalSet then .Transitional
  else .Unknown

/-- getRDSStatus (simFail.go lines 115-131) applied to the result of
its DescribeDBInstances call.  Returns (status, availabilityZone,
error): on a transport error it returns empty strings and that error;
on an empty instance list it returns empty strings and the
no-DB-instance-found error; otherwise it reads status and zone from the
first listed instance. -/
def getRDSStatus : DescribeResult → String × String × Option String
  | .err e => ("", "", some e)
  | .ok [] => ("", "", some "no DB instance found")
  | .ok (inst :: _) => (inst.dbInstanceStatus, inst.availabilityZone, none)

/-- One report line of the monitor loop: the error line printed when
getRDSStatus fails, or the status line printed by printStatus. -/
inductive MonitorEvent where
  | errorLine (msg : String)
  | statusLine (status : String) (az : String)
deriving DecidableEq, Repr

/-- State of the monitor loop after a number of iterations: the
timestamped report lines, and the return value of monitorDatabase
(none while the loop is still running). -/
structure MonitorRunState where
  events : List (Nat × MonitorEvent)
  outcome : Option (Option String)
deriving DecidableEq, Repr

/-- Ticker interval of monitorDatabase (simFail.go line 84): 5 time
units. -/
def monitorInterval : Nat := 5

/-- The monitor loop of monitorDatabase (simFail.go lines 87-94) run
for a given number of iterations, starting at call index k and clock t.
Each iteration first waits one ticker interval (for range ticker.C
fires only after the interval), then calls getRDSStatus on the next
describe result; an error is printed as an error line, a success is
printed by printStatus; the loop body never breaks or returns. -/
def monitorRun (describe : Nat → DescribeResult) : Nat → Nat → Nat → MonitorRunState
  | _, _, 0 => ⟨[], none⟩
  | k, t, fuel + 1 =>
    let t' := t + monitorInterval
    let r := getRDSStatus (describe k)
    let ev : MonitorEvent :=
      match r.2.2 with
      | some msg => .errorLine ("Error checking RDS: " ++ msg)
      | none => .statusLine r.1 r.2.1
    let rest := monitorRun describe (k + 1) t' fuel
    ⟨(t', ev) :: rest.events, rest.outcome⟩

/-- One report line of the failover recovery loop: a status line
printed by printFailoverStatus, or the final completed-successfully
line. -/
inductive FailoverEvent where
  | statusLine (status : String)
  | successLine
deriving DecidableEq, Repr

/-- State of the failover recovery loop: timestamped report lines, the
number of DescribeDBInstances calls made, and the return value of
monitorFailoverStatus (none while still running). -/
structure FailoverRunState where
  events : List (Nat × FailoverEvent)
  describeCalls : Nat
  outcome : Option (Option String)
deriving DecidableEq, Repr

/-- Sleep interval of the failover recovery loop (simFail.go line 183):
10 time units. -/
def failoverInterval : Nat := 10

/-- The recovery loop of monitorFailoverStatus (simFail.go lines
161-184) run for a given number of iterations, starting at call index
k and clock t.  Each iteration calls DescribeDBInstances immediately:
a transport error returns the wrapped error, an empty instance list
returns the no-DB-instance-found error, otherwise the first instance's
status is printed; if it is "available" the success line is printed and
the function returns nil, otherwise the loop sleeps one interval and
continues. -/
def monitorFailoverRun (describe : Nat → DescribeResult) : Nat → Nat → Nat → FailoverRunState
  | _, _, 0 => ⟨[], 0, none⟩
  | k, t, fuel + 1 =>
    match describe k with
    | .err e => ⟨[], 1, some (some ("error describing DB instance: " ++ e))⟩
    | .ok [] => ⟨[], 1, some (some "no DB instance found")⟩
    | .ok (inst :: _) =>
      let status := inst.dbInstanceStatus
      if status = "available" then
        ⟨[(t, .statusLine status), (t, .successLine)], 1, some none⟩
      else
        let rest := monitorFailoverRun describe (k + 1) (t + failoverInterval) fuel
        ⟨(t, .statusLine status) :: rest.events, rest.describeCalls + 1, rest.outcome⟩

/-- triggerFailover (simFail.go lines 133-156) after its AWS client is
built: reboot is the error of the RebootDBInstance (ForceFailover)
call.  If it failed, triggerFailover returns the wrapped error without
ever calling DescribeDBInstances; otherwise it runs
monitorFailoverStatus from call index 0 and clock 0. -/
def triggerFailover (reboot : Option String) (describe : Nat → DescribeResult)
    (fuel : Nat) : FailoverRunState :=
  match reboot with
  | some e => ⟨[], 0, some (some ("failed to trigger failover: " ++ e))⟩
  | none => monitorFailoverRun describe 0 0 fuel

/-- The times of the poll-report lines of a failover run (the status
lines printed by printFailoverStatus, one per successful
DescribeDBInstances call). -/
def pollTimes (r : FailoverRunState) : List Nat :=
  r.events.filterMap fun te =>
    match te.2 with
    | .statusLine _ => some te.1
    | .successLine => none

/-- What main (simFail.go lines 45-52) invokes for a given mode
string and loaded configuration. -/
inductive ModeCall where
  | monitorCall (cfg : Option SimulationConfig)
  | failoverCall (cfg : Option SimulationConfig)
  | invalidMode
deriving DecidableEq, Repr

/-- Observable behaviour of main's dispatch (simFail.go lines 40-52):
whether the configuration-load error line was printed, and which mode
function was invoked with which configuration (invalidMode means the
invalid-mode error line was printed and neither loop was invoked). -/
structure DispatchResult where
  configErrorReported : Bool
  call : ModeCall
deriving DecidableEq, Repr

/-- main's dispatch (simFail.go lines 40-52): loadConfig's result is
an Except (error message or parsed configuration).  On error, main
prints the error line but does not exit, so the switch still runs with
simConfig = nil (modelled as none); the switch invokes monitorDatabase
on "monitor", triggerFailover on "failover", and otherwise prints the
invalid-mode line without invoking either. -/
def mainDispatch (loadResult : Except String SimulationConfig) (mode : String) :
    DispatchResult :=
  let simConfig : Option SimulationConfig :=
    match loadResult with
    | .error _ => none
    | .ok c => some c
  let cfgErr : Bool :=
    match loadResult with
    | .error _ => true
    | .ok _ => false
  let call : ModeCall :=
    if mode = "monitor" then .monitorCall simConfig
    else if mode = "failover" then .failoverCall simConfig
    else .invalidMode
  ⟨cfgErr, call⟩

/-! ### Helper lemmas -/

lemma monitorRun_spec (describe : Nat → DescribeResult) :
    ∀ (fuel k t : Nat),
      (monitorRun describe k t fuel).outcome = none ∧
      (monitorRun describe k t fuel).events.map Prod.fst
        = (List.range fuel).map (fun j => t + monitorInterval * (j + 1)) := by
  intro fuel
  induction fuel with
  | zero => intro k t; simp [monitorRun]
  | succ n ih =>
    intro k t
    obtain ⟨h1, h2⟩ := ih (k + 1) (t + monitorInterval)
    refine ⟨by simp [monitorRun, h1], ?_⟩
    have hfun : ((fun j => t + monitorInterval * (j + 1)) ∘ Nat.succ)
        = fun j => (t + monitorInterval) + monitorInterval * (j + 1) := by
      funext j
      simp [Function.comp, Nat.succ_eq_add_one]
      ring
    simp [monitorRun, h2, List.range_succ_eq_map, List.map_map, hfun]

lemma monitorRun_length (describe : Nat → DescribeResult) (fuel k t : Nat) :
    (monitorRun describe k t fuel).events.length = fuel := by
  have h := (monitorRun_spec describe fuel k t).2
  have := congrArg List.length h
  simpa using this

lemma monitorRun_err_step (describe : Nat → DescribeResult) (k t fuel : Nat) (e : String)
    (h : describe k = DescribeResult.err e) :
    monitorRun describe k t (fuel + 1) =
      ⟨(t + monitorInterval, MonitorEvent.errorLine ("Error checking RDS: " ++ e)) ::
          (monitorRun describe (k + 1) (t + monitorInterval) fuel).events,
        (monitorRun describe (k + 1) (t + monitorInterval) fuel).outcome⟩ := by
  simp [monitorRun, h, getRDSStatus]

lemma monitorRun_not_found_step (describe : Nat → DescribeResult) (k t fuel : Nat)
    (h : describe k = DescribeResult.ok []) :
    monitorRun describe k t (fuel + 1) =
      ⟨(t + monitorInterval,
          MonitorEvent.errorLine "Error checking RDS: no DB instance found") ::
          (monitorRun describe (k + 1) (t + monitorInterval) fuel).events,
        (monitorRun describe (k + 1) (t + monitorInterval) fuel).outcome⟩ := by
  simp [monitorRun, h, getRDSStatus]

lemma failoverRun_err_step (describe : Nat → DescribeResult) (k t fuel : Nat) (e : String)
    (hd : describe k = DescribeResult.err e) :
    monitorFailoverRun describe k t (fuel + 1) =
      ⟨[], 1, some (some ("error describing DB instance: " ++ e))⟩ := by
  simp [monitorFailoverRun, hd]

lemma failoverRun_empty_step (describe : Nat → DescribeResult) (k t fuel : Nat)
    (hd : describe k = DescribeResult.ok []) :
    monitorFailoverRun describe k t (fuel + 1) =
      ⟨[], 1, some (some "no DB instance found")⟩ := by
  simp [monitorFailoverRun, hd]

lemma failoverRun_avail_step (describe : Nat → DescribeResult) (k t fuel : Nat)
    (inst : DBInstance) (others : List DBInstance)
    (hd : describe k = DescribeResult.ok (inst :: others))
    (ha : inst.dbInstanceStatus = "available") :
    monitorFailoverRun describe k t (fuel + 1) =
      ⟨[(t, FailoverEvent.statusLine inst.dbInstanceStatus), (t, FailoverEvent.successLine)],
        1, some none⟩ := by
  simp [monitorFailoverRun, hd, ha]

lemma failoverRun_cont_step (describe : Nat → DescribeResult) (k t fuel : Nat)
    (inst : DBInstance) (others : List DBInstance)
    (hd : describe k = DescribeResult.ok (inst :: others))
    (hna : inst.dbInstanceStatus ≠ "available") :
    monitorFailoverRun describe k t (fuel + 1) =
      ⟨(t, FailoverEvent.statusLine inst.dbInstanceStatus) ::
          (monitorFailoverRun describe (k + 1) (t + failoverInterval) fuel).events,
        (monitorFailoverRun describe (k + 1) (t + failoverInterval) fuel).describeCalls + 1,
        (monitorFailoverRun describe (k + 1) (t + failoverInterval) fuel).outcome⟩ := by
  simp [monitorFailoverRun, hd, hna]

lemma failoverRun_skip (describe : Nat → DescribeResult) :
    ∀ (k i t fuel : Nat),
      (∀ j, j < k → ∃ inst others, describe (i + j) = DescribeResult.ok (inst :: others) ∧
          inst.dbInstanceStatus ≠ "available") →
      ∃ pre : List (Nat × FailoverEvent),
        pre.length = k ∧
        (monitorFailoverRun describe i t (k + fuel)).events
          = pre ++ (monitorFailoverRun describe (i + k) (t + failoverInterval * k) fuel).events ∧
        (monitorFailoverRun describe i t (k + fuel)).describeCalls
          = k + (monitorFailoverRun describe (i + k) (t + failoverInterval * k) fuel).describeCalls ∧
        (monitorFailoverRun describe i t (k + fuel)).outcome
          = (monitorFailoverRun describe (i + k) (t + failoverInterval * k) fuel).outcome := by
  intro k
  induction k with
  | zero =>
    intro i t fuel _
    exact ⟨[], rfl, by simp, by simp, by simp⟩
  | succ n ih =>
    intro i t fuel h
    obtain ⟨inst, others, hd, hna⟩ := h 0 (Nat.succ_pos n)
    rw [Nat.add_zero] at hd
    obtain ⟨pre, hlen, hev, hcalls, hout⟩ :=
      ih (i + 1) (t + failoverInterval) fuel (by
        intro j hj
        have hh := h (j + 1) (Nat.succ_lt_succ hj)
        rwa [show i + (j + 1) = i + 1 + j by omega] at hh)
    have hstep := failoverRun_cont_step describe i t (n + fuel) inst others hd hna
    have hidx : i + 1 + n = i + (n + 1) := by omega
    have htime : t + failoverInterval + failoverInterval * n
        = t + failoverInterval * (n + 1) := by ring
    rw [hidx, htime] at hev hcalls hout
    refine ⟨(t, FailoverEvent.statusLine inst.dbInstanceStatus) :: pre, by simp [hlen],
      ?_, ?_, ?_⟩
    · rw [show n + 1 + fuel = (n + fuel) + 1 by omega, hstep, hev]
      simp
    · rw [show n + 1 + fuel = (n + fuel) + 1 by omega, hstep]
      simp only
      rw [hcalls]
      omega
    · rw [show n + 1 + fuel = (n + fuel) + 1 by omega, hstep, hout]

lemma failoverRun_pollTimes (describe : Nat → DescribeResult) :
    ∀ (fuel k t : Nat), ∃ p : Nat,
      pollTimes (monitorFailoverRun describe k t fuel)
        = (List.range p).map (fun j => t + failoverInterval * j) := by
  intro fuel
  induction fuel with
  | zero => intro k t; exact ⟨0, by simp [monitorFailoverRun, pollTimes]⟩
  | succ n ih =>
    intro k t
    match hd : describe k with
    | .err e =>
      exact ⟨0, by simp [failoverRun_err_step describe k t n e hd, pollTimes]⟩
    | .ok [] =>
      exact ⟨0, by simp [failoverRun_empty_step describe k t n hd, pollTimes]⟩
    | .ok (inst :: others) =>
      by_cases ha : inst.dbInstanceStatus = "available"
      · refine ⟨1, ?_⟩
        simp [failoverRun_avail_step describe k t n inst others hd ha, pollTimes,
          List.range_succ]
      · obtain ⟨p, hp⟩ := ih (k + 1) (t + failoverInterval)
        refine ⟨p + 1, ?_⟩
        rw [failoverRun_cont_step describe k t n inst others hd ha]
        have hfun : ((fun j => t + failoverInterval * j) ∘ Nat.succ)
            = fun j => (t + failoverInterval) + failoverInterval * j := by
          funext j
          simp [Function.comp, Nat.succ_eq_add_one]
          ring
        simp only [pollTimes, List.filterMap_cons] at hp ⊢
        simp only [List.range_succ_eq_map, List.map_cons, List.map_map, hfun]
        simp [hp]

lemma printFailoverStatusCategory_healthy_iff (s : String) :
    printFailoverStatusCategory s = StatusCategory.Healthy ↔ s = "available" := by
  by_cases h1 : s = "available"
  · simp [printFailoverStatusCategory, h1]
  · by_cases h2 : s = "rebooting" ∨ s = "modifying" <;>
      simp [printFailoverStatusCategory, h1, h2]

/-! ### Claim theorems -/

/-- C1 counterexample: with DescribeDBInstances returning zero matching
instances on every call, the monitor loop of monitorDatabase has, after
two iterations, printed two error lines and is still running.  It does
not stop on the first zero-instances iteration with a single error
report, contrary to the claim that a zero-instances result is fatal in
monitor mode. -/
theorem C1_counterexample :
    (monitorRun (fun _ => DescribeResult.ok []) 0 0 2).outcome = none
    ∧ (monitorRun (fun _ => DescribeResult.ok []) 0 0 2).events
      = [(5, MonitorEvent.errorLine "Error checking RDS: no DB instance found"),
         (10, MonitorEvent.errorLine "Error checking RDS: no DB instance found")] := by
  exact ⟨by decide, by decide⟩

/-- C1 (amended): a zero-instances DescribeDBInstances result is fatal
only in failover mode.  If every call before the k-th is a successful
non-available observation and the k-th call returns zero instances,
monitorFailoverStatus stops on that iteration — exactly k+1 describe
calls — and returns the no-DB-instance-found error; in monitor mode the
same run keeps going: every iteration completes (the zero-instances
result is just printed as an error line) and the loop never returns. -/
theorem C1_zero_instances_fatal_only_in_failover_mode
    (describe : Nat → DescribeResult) (k fuel : Nat)
    (hprior : ∀ j, j < k → ∃ inst others,
        describe j = DescribeResult.ok (inst :: others) ∧
        inst.dbInstanceStatus ≠ "available")
    (hk : describe k = DescribeResult.ok [])
    (hfuel : k < fuel) :
    (monitorFailoverRun describe 0 0 fuel).outcome = some (some "no DB instance found")
    ∧ (monitorFailoverRun describe 0 0 fuel).describeCalls = k + 1
    ∧ (monitorRun describe 0 0 fuel).outcome = none
    ∧ (monitorRun describe 0 0 fuel).events.length = fuel := by
  obtain ⟨f, hf⟩ : ∃ f, fuel = k + (f + 1) := ⟨fuel - k - 1, by omega⟩
  subst hf
  obtain ⟨pre, hlen, hev, hcalls, hout⟩ :=
    failoverRun_skip describe k 0 0 (f + 1) (by intro j hj; simpa using hprior j hj)
  simp only [Nat.zero_add] at hev hcalls hout
  rw [failoverRun_empty_step describe k (failoverInterval * k) f hk] at hcalls hout
  refine ⟨hout, by simpa using hcalls, (monitorRun_spec describe (k + (f + 1)) 0 0).1,
    monitorRun_length describe (k + (f + 1)) 0 0⟩

/-- C1 witness for the amended theorem, at the concrete input of
Scenario D: zero instances reported on the very first call. -/
theorem C1_witness :
    ((fun _ => DescribeResult.ok []) 0 = DescribeResult.ok ([] : List DBInstance))
    ∧ (0 : Nat) < 1
    ∧ (monitorFailoverRun (fun _ => DescribeResult.ok []) 0 0 1).outcome
        = some (some "no DB instance found")
    ∧ (monitorRun (fun _ => DescribeResult.ok []) 0 0 1).events.length = 1 := by
  have h := C1_zero_instances_fatal_only_in_failover_mode
    (fun _ => DescribeResult.ok []) 0 1
    (by intro j hj; exact absurd hj (by omega)) rfl (by decide)
  exact ⟨rfl, by decide, h.1, h.2.2.2⟩

/-- C2: status classification is a total, deterministic function of the
raw status string.  Both classification sites — the printStatus switch
of monitor mode and the printFailoverStatus switch of failover mode —
realize the spec-side classifier exactly: every string of the
recognized Healthy set maps to Healthy, every string of the recognized
Transitional set (rebooting, modifying) to Transitional, and every
other string, including the empty string, to Unknown.  Totality and
determinism hold because both sites embed as pure Lean functions of the
status string alone, and no error value exists in their codomain. -/
theorem C2_classification_total_deterministic (s : String) :
    printStatusCategory s = specClassify s
    ∧ printFailoverStatusCategory s = specClassify s
    ∧ printStatusCategory "" = StatusCategory.Unknown := by
  refine ⟨?_, ?_, by decide⟩ <;>
    simp [printStatusCategory, printFailoverStatusCategory, specClassify,
      healthySet, transitionalSet]

/-- C3: if the ForceFailover (RebootDBInstance) call fails,
triggerFailover returns the wrapped error immediately: no recovery-loop
iteration runs, no report line is printed, and DescribeDBInstances is
called zero times afterward. -/
theorem C3_trigger_error_aborts_immediately
    (e : String) (describe : Nat → DescribeResult) (fuel : Nat) :
    triggerFailover (some e) describe fuel
      = ⟨[], 0, some (some ("failed to trigger failover: " ++ e))⟩ := rfl

/-- C4: after a successful ForceFailover, if the describe stream yields
a Healthy-classified first instance on its Nth call and non-Healthy
successful observations on all prior calls, the failover orchestrator
makes exactly N describe calls, prints the completed-successfully line
(at the Nth poll time), and returns with no error. -/
theorem C4_failover_polls_exactly_n_then_succeeds
    (describe : Nat → DescribeResult) (N fuel : Nat)
    (hN : 0 < N) (hfuel : N ≤ fuel)
    (hprior : ∀ j, j < N - 1 → ∃ inst others,
        describe j = DescribeResult.ok (inst :: others) ∧
        printFailoverStatusCategory inst.dbInstanceStatus ≠ StatusCategory.Healthy)
    (hNth : ∃ inst others, describe (N - 1) = DescribeResult.ok (inst :: others) ∧
        printFailoverStatusCategory inst.dbInstanceStatus = StatusCategory.Healthy) :
    triggerFailover none describe fuel = monitorFailoverRun describe 0 0 fuel
    ∧ (triggerFailover none describe fuel).outcome = some none
    ∧ (triggerFailover none describe fuel).describeCalls = N
    ∧ (failoverInterval * (N - 1), FailoverEvent.successLine)
        ∈ (triggerFailover none describe fuel).events := by
  obtain ⟨inst, others, hd, hcat⟩ := hNth
  have ha : inst.dbInstanceStatus = "available" :=
    (printFailoverStatusCategory_healthy_iff inst.dbInstanceStatus).mp hcat
  obtain ⟨f, hf⟩ : ∃ f, fuel = (N - 1) + (f + 1) := ⟨fuel - N, by omega⟩
  subst hf
  obtain ⟨pre, hlen, hev, hcalls, hout⟩ :=
    failoverRun_skip describe (N - 1) 0 0 (f + 1) (by
      intro j hj
      obtain ⟨i2, o2, hd2, hc2⟩ := hprior j hj
      refine ⟨i2, o2, by simpa using hd2, ?_⟩
      intro hav
      exact hc2 ((printFailoverStatusCategory_healthy_iff i2.dbInstanceStatus).mpr hav))
  simp only [Nat.zero_add] at hev hcalls hout
  rw [failoverRun_avail_step describe (N - 1) (failoverInterval * (N - 1)) f inst others hd ha]
    at hev hcalls hout
  refine ⟨rfl, ?_, ?_, ?_⟩
  · show (monitorFailoverRun describe 0 0 ((N - 1) + (f + 1))).outcome = some none
    simpa using hout
  · show (monitorFailoverRun describe 0 0 ((N - 1) + (f + 1))).describeCalls = N
    simp at hcalls
    omega
  · show (failoverInterval * (N - 1), FailoverEvent.successLine)
      ∈ (monitorFailoverRun describe 0 0 ((N - 1) + (f + 1))).events
    rw [hev]
    simp [ha]

/-- C4 witness at the concrete input of Scenario B truncated to one
poll: the instance is already available on the first post-trigger
poll. -/
theorem C4_witness :
    (0 : Nat) < 1 ∧ (1 : Nat) ≤ 1
    ∧ (triggerFailover none (fun _ => DescribeResult.ok [⟨"available", "us-east-1a"⟩]) 1).outcome
        = some none
    ∧ (triggerFailover none
        (fun _ => DescribeResult.ok [⟨"available", "us-east-1a"⟩]) 1).describeCalls = 1 := by
  have h := C4_failover_polls_exactly_n_then_succeeds
    (fun _ => DescribeResult.ok [⟨"available", "us-east-1a"⟩]) 1 1
    (by decide) (by decide)
    (by intro j hj; exact absurd hj (by omega))
    ⟨⟨"available", "us-east-1a"⟩, [], rfl, by decide⟩
  exact ⟨by decide, by decide, h.2.1, h.2.2.1⟩

/-- C5 counterexample: in the failover recovery loop a transport error
on the very first status query terminates the loop at once — after one
DescribeDBInstances call the run has returned the wrapped error, with
plenty of fuel left — contradicting the claim that a transport error
never terminates any use of the polling loop. -/
theorem C5_counterexample :
    (monitorFailoverRun (fun _ => DescribeResult.err "request timeout") 0 0 5).outcome
      = some (some "error describing DB instance: request timeout")
    ∧ (monitorFailoverRun (fun _ => DescribeResult.err "request timeout") 0 0 5).describeCalls
      = 1 := by
  exact ⟨by decide, by decide⟩

/-- C5 (amended): the two loops treat a transport error on the status
query differently.  The monitor loop prints an error line and continues
to the next tick (and still never returns); the failover recovery loop
terminates on that iteration and returns the wrapped describe error to
the caller. -/
theorem C5_transport_error_tolerated_only_in_monitor_mode
    (describe : Nat → DescribeResult) (k t fuel : Nat) (e : String)
    (h : describe k = DescribeResult.err e) :
    monitorRun describe k t (fuel + 1) =
      ⟨(t + monitorInterval, MonitorEvent.errorLine ("Error checking RDS: " ++ e)) ::
          (monitorRun describe (k + 1) (t + monitorInterval) fuel).events,
        (monitorRun describe (k + 1) (t + monitorInterval) fuel).outcome⟩
    ∧ (monitorRun describe k t (fuel + 1)).outcome = none
    ∧ monitorFailoverRun describe k t (fuel + 1)
      = ⟨[], 1, some (some ("error describing DB instance: " ++ e))⟩ := by
  exact ⟨monitorRun_err_step describe k t fuel e h,
    (monitorRun_spec describe (fuel + 1) k t).1,
    failoverRun_err_step describe k t fuel e h⟩

/-- C5 witness at a concrete transport failure on the first query. -/
theorem C5_witness :
    ((fun _ => DescribeResult.err "boom") 0 = DescribeResult.err "boom")
    ∧ (monitorRun (fun _ => DescribeResult.err "boom") 0 0 1).outcome = none
    ∧ monitorFailoverRun (fun _ => DescribeResult.err "boom") 0 0 1
      = ⟨[], 1, some (some "error describing DB instance: boom")⟩ := by
  have h := C5_transport_error_tolerated_only_in_monitor_mode
    (fun _ => DescribeResult.err "boom") 0 0 0 "boom" rfl
  exact ⟨rfl, h.2.1, by simpa using h.2.2⟩

/-- C6 counterexample: a failover recovery run over an instance that
stays in rebooting state polls at times 0, 10, 20 — its first query
happens immediately, not after one full 10-unit interval as the claim
asserts for every use of the polling loop. -/
theorem C6_counterexample :
    pollTimes (monitorFailoverRun
        (fun _ => DescribeResult.ok [⟨"rebooting", "us-east-1a"⟩]) 0 0 3)
      = [0, 10, 20]
    ∧ (0 : Nat) < failoverInterval := by
  exact ⟨by decide, by decide⟩

/-- C6 (amended): the monitor loop waits one full 5-unit interval
before each query, so its j-th report is at time t + 5(j+1) and its
first query occurs only after one interval; the failover recovery loop
queries immediately and sleeps 10 units after each non-terminal report,
so its poll reports sit at times t, t+10, t+20, ... — the first one
with no initial wait.  In both loops consecutive reports are exactly
one full configured interval apart. -/
theorem C6_poll_timing (describe : Nat → DescribeResult) (fuel k t : Nat) :
    (monitorRun describe k t fuel).events.map Prod.fst
      = (List.range fuel).map (fun j => t + monitorInterval * (j + 1))
    ∧ ∃ p, pollTimes (monitorFailoverRun describe k t fuel)
      = (List.range p).map (fun j => t + failoverInterval * j) := by
  exact ⟨(monitorRun_spec describe fuel k t).2, failoverRun_pollTimes describe fuel k t⟩

/-- C7: when configuration loading fails, main prints the error line
but does not halt: the mode switch still runs, and the selected mode
function is invoked with the absent (nil) configuration. -/
theorem C7_config_error_reported_but_not_fatal (e : String) :
    mainDispatch (Except.error e) "monitor"
      = ⟨true, ModeCall.monitorCall none⟩
    ∧ mainDispatch (Except.error e) "failover"
      = ⟨true, ModeCall.failoverCall none⟩ := by
  exact ⟨rfl, rfl⟩

/-- C8: any mode-selector value other than monitor and failover makes
main print the invalid-mode line and invoke neither loop. -/
theorem C8_invalid_mode_invokes_neither_loop
    (loadResult : Except String SimulationConfig) (mode : String)
    (h1 : mode ≠ "monitor") (h2 : mode ≠ "failover") :
    (mainDispatch loadResult mode).call = ModeCall.invalidMode := by
  simp [mainDispatch, h1, h2]

/-- C8 witness at the concrete unrecognized selector "reboot". -/
theorem C8_witness :
    ("reboot" ≠ "monitor") ∧ ("reboot" ≠ "failover")
    ∧ (mainDispatch (Except.ok ⟨"db-1", "x", 3306⟩) "reboot").call
      = ModeCall.invalidMode := by
  exact ⟨by decide, by decide,
    C8_invalid_mode_invokes_neither_loop (Except.ok ⟨"db-1", "x", 3306⟩) "reboot"
      (by decide) (by decide)⟩

/-- C9: getRDSStatus takes status and availability zone exclusively
from the first element of a non-empty instance list, ignoring any
additional instances, and on any failure — transport error or zero
instances — returns empty strings together with a non-nil error. -/
theorem C9_status_from_first_instance_only
    (e : String) (inst : DBInstance) (others : List DBInstance) :
    getRDSStatus (DescribeResult.err e) = ("", "", some e)
    ∧ getRDSStatus (DescribeResult.ok []) = ("", "", some "no DB instance found")
    ∧ getRDSStatus (DescribeResult.ok (inst :: others))
      = (inst.dbInstanceStatus, inst.availabilityZone, none) := by
  exact ⟨rfl, rfl, rfl⟩

/-- C10: the monitor loop never returns under any stream of query
outcomes: after any number of iterations its outcome is still
running (so the nil return after the loop is unreachable), and every
iteration completed and produced a report line. -/
theorem C10_monitor_loop_never_returns
    (describe : Nat → DescribeResult) (k t fuel : Nat) :
    (monitorRun describe k t fuel).outcome = none
    ∧ (monitorRun describe k t fuel).events.length = fuel := by
  exact ⟨(monitorRun_spec describe fuel k t).1, monitorRun_length describe fuel k t⟩
